import Mathlib

/-!
Shallow embedding of the reverse-tunnel client in `src/tunnel/tunnel.go`
(package `tunnel`, function `Create`), and proofs about its session
lifecycle, error handling and connection relaying.

The Go code is a single function `Create(c *Configuration)` that

  1. parses a pinned host key (`ssh.ParseAuthorizedKey(hostBytes)`),
  2. connects to the relay either through an HTTP forward proxy taken
     from the `http_proxy` environment variable (raw TCP dial to
     `proxyURL.Hostname()`, HTTP CONNECT, then `ssh.NewClientConn`) or
     directly (`ssh.Dial`),
  3. opens a session, spawns a goroutine reading the control channel
     line by line,
  4. asks the relay to bind a remote listener and, in a loop, accepts
     inbound connections; each one is either handed to a caller
     supplied hook or relayed to the target by two concurrent
     `io.Copy` directions.

We embed `Create` as a pure function of the `Configuration` plus an
`Env` record holding the result of every external interaction (dials,
handshake, reads, accepts).  Effects are recorded as lists of `Event`
values: one trace for the main control flow, one for the control
output reader goroutine, one per accepted connection.  `log.Fatalf`
calls, which terminate the process in Go, are modelled as a `.fatal`
termination of the trace.
-/

namespace Tunnel

/-- Mirror of the Go `Configuration` struct; the function-valued field
`InBoundConnectionHook` is represented by whether it is non-nil, which is
all `Create` inspects, and the lifecycle channel by explicit
`sendSignal` events. -/
structure Configuration where
  protocol : String
  subdomain : String
  domain : String
  port : Int
  host : String
  user : String
  remoteHost : String
  remotePort : Int
  targetHost : String
  targetPort : Int
  hasInBoundConnectionHook : Bool
  hideBanner : Bool
  deriving Repr, DecidableEq

/-- The `EventReconnect` constant: `iota` gives `_ = 0`, `EventReconnect = 1`. -/
def EventReconnect : Nat := 1

/-- The pinned relay identity compiled into the binary (`hostBytes`). -/
def hostBytes : String :=
  "ssh-rsa AAAAB3NzaC1yc2EAAAADAQABAAACAQDoSLknvlFrFzroOlh1cqvcIFelHO+Wvj1UZ/p3J9bgsJGiKfh3DmBqEw1DOEwpHJz4zuV375TyjGuHuGZ4I4xztnwauhFplfEvriVHQkIDs6UnGwJVr15XUQX04r0i6mLbJs5KqIZTZuZ9ZGOj7ZWnaA7C07nPHGrERKV2Fm67rPvT6/qFikdWUbCt7KshbzdwwfxUohmv+NI7vw2X6vPU8pDaNEY7vS3YgwD/WlvQx+WDF2+iwLVW8OWWjFuQso6Eg1BSLygfPNhAHoiOWjDkijc8U9LYkUn7qsDCnvJxCoTTNmdECukeHfzrUjTSw72KZoM5KCRV78Wrctai1Qn6yRQz9BOSguxewLfzHtnT43/MLdwFXirJ/Ajquve2NAtYmyGCq5HcvpDAyi7lQ0nFBnrWv5zU3YxrISIpjovVyJjfPx8SCRlYZwVeUq6N2yAxCzJxbElZPtaTSoXBIFtoas2NXnCWPgenBa/2bbLQqfgbN8VQ9RaUISKNuYDIn4+eO72+RxF9THzZeV17pnhTVK88XU4asHot1gXwAt4vEhSjdUBC9KUIkfukI6F4JFxtvuO96octRahdV1Qg0vF+D0+SPy2HxqjgZWgPE2Xh/NmuIXwbE0wkymR2wrgj8Hd4C92keo2NBRh9dD7D2negnVYaYsC+3k/si5HNuCHnHQ== tunnel@labstack.com"

/-- Userinfo component of a parsed URL (`url.Userinfo`): a username and,
when `Password()` reports `ok`, a password. -/
structure Userinfo where
  username : String
  password : Option String
  deriving Repr, DecidableEq

/-- A parsed proxy URL, as `Create` consumes it: `Hostname()` (host with
any port already stripped), `Port()`, and the optional `User` field.
The Go code calls only `Hostname()` and reads `User`. -/
structure URL where
  hostname : String
  port : Option String
  userinfo : Option Userinfo
  deriving Repr, DecidableEq

/-- A parsed HTTP response, as returned by `http.ReadResponse` on
success.  `Create` stores it only to `defer resp.Body.Close()`; the
status line is carried here so we can state what `Create` does (and
does not do) with it. -/
structure HttpResponse where
  statusCode : Nat
  deriving Repr, DecidableEq

/-- One result of `br.ReadLine()` in the control output reader
goroutine: a line, end of stream, or some other read error. -/
inductive ReadResult where
  | line (s : String)
  | eofEnd
  | errOther
  deriving Repr, DecidableEq

/-- Result of receiving the first value from the relay goroutines on
`errCh`: `io.Copy` returned nil, returned `io.EOF`, or returned some
other error. -/
inductive CopyErr where
  | nilErr
  | eofErr
  | otherErr
  deriving Repr, DecidableEq

/-- External outcomes for one accepted inbound connection handled by the
default relay path: whether `net.Dial` to the target succeeds, and the
first copy-direction result read from `errCh`. -/
structure ConnEnv where
  dialTargetOk : Bool
  firstCopyErr : CopyErr
  deriving Repr, DecidableEq

/-- One iteration of the accept loop: `ln.Accept()` yields a connection
(with that connection's external outcomes) or fails. -/
inductive AcceptResult where
  | conn (ce : ConnEnv)
  | acceptErr
  deriving Repr, DecidableEq

/-- Results of every external interaction of one `Create` call, in
program order.  `parsedHostKey` is the result of
`ssh.ParseAuthorizedKey(hostBytes)` (`some pinned` on success);
`presentedKey` is the host key the relay presents during the secure
handshake, checked by `ssh.FixedHostKey`; `hsTransportOk` is whether
the handshake fails for a reason other than the host-key check. -/
structure Env where
  parsedHostKey : Option String
  httpProxy : String
  proxyURL : Option URL
  proxyTcpDialOk : Bool
  readResponse : Option HttpResponse
  hsTransportOk : Bool
  presentedKey : String
  directTcpOk : Bool
  newSessionOk : Bool
  stdoutPipeOk : Bool
  controlReads : List ReadResult
  listenOk : Bool
  accepts : List AcceptResult
  deriving Repr, DecidableEq

/-- The two copy directions started per relayed connection:
`go cp(in, out)` copies target bytes to the inbound side and
`go cp(out, in)` copies inbound bytes to the target. -/
inductive CopyDir where
  | targetToInbound
  | inboundToTarget
  deriving Repr, DecidableEq

/-- The two sides of one relayed connection pair. -/
inductive ConnSide where
  | inbound
  | target
  deriving Repr, DecidableEq

/-- Observable effects of the embedded `Create`. -/
inductive Event where
  | dialProxy (addr : String)
  | writeConnect (host : String) (auth : Option (String × String))
  | sendSignal (v : Nat)
  | logError (site : String)
  | logFatal (site : String)
  | logPrint (site : String)
  | printLine (s : String)
  | dialTarget (addr : String)
  | startCopy (d : CopyDir)
  | closeConn (w : ConnSide)
  | spawnHook
  deriving Repr, DecidableEq

/-- How the `Create` call (lines 48-109) leaves the connect phase:
terminated by `log.Fatalf`, returned after `log.Errorf` plus
`c.Channel <- EventReconnect`, or holding a connected ssh client. -/
inductive ConnectOutcome where
  | fatal
  | reconnectReturn
  | connected
  deriving Repr, DecidableEq

/-- The `ssh.FixedHostKey(hostKey)` callback: accept exactly the pinned
key. -/
def FixedHostKey (pinned presented : String) : Bool :=
  presented == pinned

/-- Whether the secure handshake (`ssh.NewClientConn` directly, or inside
`ssh.Dial`) succeeds: no transport-level failure and the presented host
key passes `FixedHostKey`. -/
def hsOk (e : Env) (pinned : String) : Bool :=
  e.hsTransportOk && FixedHostKey pinned e.presentedKey

/-- Basic-auth credentials attached to the CONNECT request:
`SetBasicAuth` is called only when the proxy URL has a user whose
`Password()` reports a password. -/
def connectAuth (u : URL) : Option (String × String) :=
  match u.userinfo with
  | none => none
  | some ui =>
    match ui.password with
    | none => none
    | some p => some (ui.username, p)

/-- Lines 48-109 of `Create`: parse the pinned key, connect through the
proxy (CONNECT handshake then `ssh.NewClientConn`) when `http_proxy` is
set, else `ssh.Dial` directly; every proxy-path failure is
`log.Fatalf`, while a failed direct `ssh.Dial` logs an error, sends
`EventReconnect` on the channel and returns. -/
def connectPhase (c : Configuration) (e : Env) : ConnectOutcome × List Event :=
  match e.parsedHostKey with
  | none => (.fatal, [.logFatal "failed to parse host key"])
  | some pinned =>
    if e.httpProxy != "" then
      match e.proxyURL with
      | none => (.fatal, [.logFatal "cannot open new session"])
      | some u =>
        if !e.proxyTcpDialOk then
          (.fatal, [.dialProxy u.hostname, .logFatal "cannot open new session"])
        else
          match e.readResponse with
          | none =>
            (.fatal, [.dialProxy u.hostname, .writeConnect c.host (connectAuth u),
                      .logFatal "cannot open new session"])
          | some _resp =>
            if !hsOk e pinned then
              (.fatal, [.dialProxy u.hostname, .writeConnect c.host (connectAuth u),
                        .logFatal "cannot open new session"])
            else
              (.connected, [.dialProxy u.hostname, .writeConnect c.host (connectAuth u)])
    else
      if !e.directTcpOk || !hsOk e pinned then
        (.reconnectReturn, [.logError "failed to connect", .sendSignal EventReconnect])
      else
        (.connected, [])

/-- How the control output reader goroutine ends on a given prefix of
read results: still blocked in `ReadLine`, returned after signalling
reconnect on end of stream, or the process was terminated by
`log.Fatalf` on another read error. -/
inductive ReaderOutcome where
  | blocked
  | returned
  | fatalErr
  deriving Repr, DecidableEq

/-- The goroutine of lines 123-136: loop reading lines; print each line;
on `io.EOF` send `EventReconnect` and return; on any other read error
`log.Fatalf`. -/
def readerLoop : List ReadResult → ReaderOutcome × List Event
  | [] => (.blocked, [])
  | .line s :: rest =>
    let r := readerLoop rest
    (r.1, .printLine s :: r.2)
  | .eofEnd :: _ => (.returned, [.sendSignal EventReconnect])
  | .errOther :: _ => (.fatalErr, [.logFatal "failed to read"])

/-- The target address `fmt.Sprintf("%s:%d", c.TargetHost, c.TargetPort)`. -/
def targetAddr (c : Configuration) : String :=
  c.targetHost ++ ":" ++ toString c.targetPort

/-- The remote bind address `fmt.Sprintf("%s:%d", c.RemoteHost, c.RemotePort)`. -/
def remoteAddr (c : Configuration) : String :=
  c.remoteHost ++ ":" ++ toString c.remotePort

/-- The relay goroutine of lines 158-183 for one inbound connection:
dial the target (on failure log and return, the deferred `in.Close()`
still runs); on success start both copy directions, receive the first
result from `errCh`, log it unless it is nil or `io.EOF`, then run the
deferred closes (`out.Close()` before `in.Close()`, reverse
registration order). -/
def relay (c : Configuration) (ce : ConnEnv) : List Event :=
  if !ce.dialTargetOk then
    [.dialTarget (targetAddr c), .logPrint "failed to connect to target",
     .closeConn .inbound]
  else
    [.dialTarget (targetAddr c), .startCopy .targetToInbound,
     .startCopy .inboundToTarget]
    ++ (match ce.firstCopyErr with
        | .otherErr => [.logPrint "failed to copy"]
        | _ => [])
    ++ [.closeConn .target, .closeConn .inbound]

/-- Lines 153-183: what the accept loop does with one accepted inbound
connection — with a hook configured it spawns `go
c.InBoundConnectionHook(in)` and continues; otherwise the relay
goroutine runs. -/
def handleConn (c : Configuration) (ce : ConnEnv) : List Event :=
  if c.hasInBoundConnectionHook then [.spawnHook] else relay c ce

/-- How the accept loop of lines 145-184 ends: still blocked in
`Accept`, or returned after an `Accept` error. -/
inductive LoopOutcome where
  | blocked
  | returnedErr
  deriving Repr, DecidableEq

/-- The accept loop: each successful `Accept` spawns a handler for that
connection and iterates; an `Accept` error ends the loop (the
`log.Printf` for it is added by `createAttempt`). -/
def acceptLoop (c : Configuration) : List AcceptResult → LoopOutcome × List (List Event)
  | [] => (.blocked, [])
  | .acceptErr :: _ => (.returnedErr, [])
  | .conn ce :: rest =>
    let r := acceptLoop c rest
    (r.1, handleConn c ce :: r.2)

/-- How the whole `Create` call ends: process terminated by a
`log.Fatalf` on the main control flow, function returned, or still
blocked (in `Accept` or waiting for more control reads). -/
inductive Termination where
  | fatal
  | returned
  | blocked
  deriving Repr, DecidableEq

/-- Everything one `Create` call did: its termination, the main control
flow trace, whether and what the reader goroutine did, whether
`client.Listen` succeeded, and the trace of each connection handler. -/
structure AttemptResult where
  termination : Termination
  mainEvents : List Event
  readerSpawned : Bool
  readerOutcome : ReaderOutcome
  readerEvents : List Event
  obtainedListener : Bool
  connEvents : List (List Event)
  deriving Repr, DecidableEq

/-- The whole of `Create` (lines 48-184): the connect phase, then
`client.NewSession` (fatal on failure), `sess.StdoutPipe` (only logged
on failure), the reader goroutine, `client.Listen` (fatal on failure)
and the accept loop. -/
def createAttempt (c : Configuration) (e : Env) : AttemptResult :=
  let (co, evs) := connectPhase c e
  match co with
  | .fatal =>
    { termination := .fatal, mainEvents := evs, readerSpawned := false,
      readerOutcome := .blocked, readerEvents := [],
      obtainedListener := false, connEvents := [] }
  | .reconnectReturn =>
    { termination := .returned, mainEvents := evs, readerSpawned := false,
      readerOutcome := .blocked, readerEvents := [],
      obtainedListener := false, connEvents := [] }
  | .connected =>
    if !e.newSessionOk then
      { termination := .fatal,
        mainEvents := evs ++ [.logFatal "failed to create session"],
        readerSpawned := false, readerOutcome := .blocked, readerEvents := [],
        obtainedListener := false, connEvents := [] }
    else
      let evs := evs ++ (if e.stdoutPipeOk then [] else [.logPrint "stdout pipe error"])
      let rd := readerLoop e.controlReads
      if !e.listenOk then
        { termination := .fatal,
          mainEvents := evs ++ [.logFatal "failed to listen on remote host"],
          readerSpawned := true, readerOutcome := rd.1, readerEvents := rd.2,
          obtainedListener := false, connEvents := [] }
      else
        let lp := acceptLoop c e.accepts
        { termination := match lp.1 with
            | .blocked => .blocked
            | .returnedErr => .returned,
          mainEvents := evs ++ (match lp.1 with
            | .blocked => []
            | .returnedErr => [.logPrint "failed to accept connection"]),
          readerSpawned := true, readerOutcome := rd.1, readerEvents := rd.2,
          obtainedListener := true, connEvents := lp.2 }

/-- Number of lifecycle signals (`c.Channel <- _`) in a trace. -/
def countSignals (evs : List Event) : Nat :=
  (evs.filter fun ev => match ev with | .sendSignal _ => true | _ => false).length

/-- Number of `log.Fatalf` process terminations in a trace. -/
def countFatals (evs : List Event) : Nat :=
  (evs.filter fun ev => match ev with | .logFatal _ => true | _ => false).length

/-- Total lifecycle signals one `Create` call sends, across the main
flow, the reader goroutine and every connection handler. -/
def attemptSignals (r : AttemptResult) : Nat :=
  countSignals r.mainEvents + countSignals r.readerEvents
    + (r.connEvents.map countSignals).sum

/-- Success statuses as the spec words them ("a non-success response"):
the 2xx range.  This definition follows the specification, not the
code — `Create` never inspects the status — and exists to state the
comparison. -/
def specSuccessStatus (n : Nat) : Bool :=
  200 ≤ n && n < 300

/-! Concrete sample inputs used to instantiate the claim theorems. -/

/-- Concrete configuration matching the scenario of the spec:
relay `relay.example:22`, remote bind `0.0.0.0:9000`, target
`127.0.0.1:8080`. -/
def sampleConfig : Configuration :=
  { protocol := "http", subdomain := "s", domain := "d", port := 80,
    host := "relay.example:22", user := "u", remoteHost := "0.0.0.0",
    remotePort := 9000, targetHost := "127.0.0.1", targetPort := 8080,
    hasInBoundConnectionHook := false, hideBanner := false }

/-- Direct mode; the relay presents a key other than the pinned one;
every other external interaction succeeds. -/
def envDirectMismatch : Env :=
  { parsedHostKey := some "pinned-key", httpProxy := "", proxyURL := none,
    proxyTcpDialOk := true, readResponse := none, hsTransportOk := true,
    presentedKey := "other-key", directTcpOk := true, newSessionOk := true,
    stdoutPipeOk := true, controlReads := [], listenOk := true, accepts := [] }

/-- A parsed proxy URL with an explicit port. -/
def proxyURLSample : URL :=
  { hostname := "proxy.local", port := some "3128", userinfo := none }

/-- Proxy mode with the raw TCP dial to the proxy failing. -/
def envProxyDialFail : Env :=
  { parsedHostKey := some "pinned-key", httpProxy := "http://proxy.local:3128",
    proxyURL := some proxyURLSample, proxyTcpDialOk := false,
    readResponse := none, hsTransportOk := true, presentedKey := "pinned-key",
    directTcpOk := true, newSessionOk := true, stdoutPipeOk := true,
    controlReads := [], listenOk := true, accepts := [] }

/-- Proxy mode where the CONNECT response parses but carries the
non-success status 407, and everything else succeeds. -/
def envProxy407 : Env :=
  { parsedHostKey := some "pinned-key", httpProxy := "http://proxy.local:3128",
    proxyURL := some proxyURLSample, proxyTcpDialOk := true,
    readResponse := some { statusCode := 407 }, hsTransportOk := true,
    presentedKey := "pinned-key", directTcpOk := true, newSessionOk := true,
    stdoutPipeOk := true, controlReads := [], listenOk := true, accepts := [] }

/-- Direct mode with everything succeeding, one relayed connection and
then an `Accept` failure. -/
def envDirectOk : Env :=
  { parsedHostKey := some "pinned-key", httpProxy := "", proxyURL := none,
    proxyTcpDialOk := true, readResponse := none, hsTransportOk := true,
    presentedKey := "pinned-key", directTcpOk := true, newSessionOk := true,
    stdoutPipeOk := true, controlReads := [], listenOk := true,
    accepts := [AcceptResult.conn { dialTargetOk := true, firstCopyErr := .nilErr },
                AcceptResult.acceptErr] }

/-! Helper lemmas shared by the claim theorems. -/

theorem countSignals_append (xs ys : List Event) :
    countSignals (xs ++ ys) = countSignals xs + countSignals ys := by
  simp [countSignals, List.filter_append]

theorem countSignals_nil : countSignals [] = 0 := rfl

theorem countSignals_logPrint (s : String) :
    countSignals [Event.logPrint s] = 0 := rfl

theorem countSignals_logFatal (s : String) :
    countSignals [Event.logFatal s] = 0 := rfl

theorem countSignals_cons_logPrint (s : String) (xs : List Event) :
    countSignals (Event.logPrint s :: xs) = countSignals xs := rfl

theorem countSignals_cons_logFatal (s : String) (xs : List Event) :
    countSignals (Event.logFatal s :: xs) = countSignals xs := rfl

theorem countSignals_cons_logError (s : String) (xs : List Event) :
    countSignals (Event.logError s :: xs) = countSignals xs := rfl

theorem countSignals_cons_dialProxy (a : String) (xs : List Event) :
    countSignals (Event.dialProxy a :: xs) = countSignals xs := rfl

theorem countSignals_cons_sendSignal (v : Nat) (xs : List Event) :
    countSignals (Event.sendSignal v :: xs) = countSignals xs + 1 := rfl

theorem readerLoop_signals_le_one (rs : List ReadResult) :
    countSignals (readerLoop rs).2 ≤ 1 := by
  induction rs with
  | nil => simp [readerLoop, countSignals]
  | cons r rest ih =>
    cases r with
    | line s => simpa [readerLoop, countSignals] using ih
    | eofEnd => simp [readerLoop, countSignals]
    | errOther => simp [readerLoop, countSignals]

theorem handleConn_signals (c : Configuration) (ce : ConnEnv) :
    countSignals (handleConn c ce) = 0 := by
  cases hhook : c.hasInBoundConnectionHook <;>
    cases hdial : ce.dialTargetOk <;>
    cases herr : ce.firstCopyErr <;>
    simp [handleConn, relay, hhook, hdial, herr, countSignals]

theorem acceptLoop_signals (c : Configuration) (as : List AcceptResult) :
    (((acceptLoop c as).2).map countSignals).sum = 0 := by
  induction as with
  | nil => simp [acceptLoop]
  | cons a rest ih =>
    cases a with
    | acceptErr => simp [acceptLoop]
    | conn ce => simp [acceptLoop, handleConn_signals, ih]

theorem acceptLoop_conns_then_err (c : Configuration) (ces : List ConnEnv)
    (rest : List AcceptResult) :
    acceptLoop c (ces.map AcceptResult.conn ++ AcceptResult.acceptErr :: rest)
      = (.returnedErr, ces.map (handleConn c)) := by
  induction ces with
  | nil => simp [acceptLoop]
  | cons ce ces ih => simp [acceptLoop, ih]

/-- C4: the control output reader prints every successfully read line;
end-of-stream produces exactly one reconnect signal and stops the
reader; any other read error terminates the process. -/
theorem C4_reader_behavior (ls : List String) :
    (∀ rest, readerLoop (ls.map ReadResult.line ++ ReadResult.eofEnd :: rest)
        = (.returned, ls.map Event.printLine ++ [Event.sendSignal EventReconnect]))
    ∧ (∀ rest, readerLoop (ls.map ReadResult.line ++ ReadResult.errOther :: rest)
        = (.fatalErr, ls.map Event.printLine ++ [Event.logFatal "failed to read"]))
    ∧ countSignals (ls.map Event.printLine ++ [Event.sendSignal EventReconnect]) = 1 := by
  refine ⟨?_, ?_, ?_⟩
  · intro rest
    induction ls with
    | nil => simp [readerLoop]
    | cons s ls ih => simp [readerLoop, ih]
  · intro rest
    induction ls with
    | nil => simp [readerLoop]
    | cons s ls ih => simp [readerLoop, ih]
  · induction ls with
    | nil => simp [countSignals]
    | cons s ls ih => simp [countSignals]

/-- C6: without a hook, a failed target dial closes the inbound
connection, emits no signal, triggers no fatal termination, and leaves
the accept loop and the other handlers exactly as they would be for
the remaining accept results. -/
theorem C6_target_dial_failure_isolated (c : Configuration) (ce : ConnEnv)
    (hhook : c.hasInBoundConnectionHook = false) (hdial : ce.dialTargetOk = false) :
    handleConn c ce
      = [.dialTarget (targetAddr c), .logPrint "failed to connect to target",
         .closeConn .inbound]
    ∧ countSignals (handleConn c ce) = 0
    ∧ countFatals (handleConn c ce) = 0
    ∧ ∀ rest, acceptLoop c (AcceptResult.conn ce :: rest)
        = ((acceptLoop c rest).1, handleConn c ce :: (acceptLoop c rest).2) := by
  refine ⟨?_, ?_, ?_, ?_⟩
  · simp [handleConn, relay, hhook, hdial]
  · exact handleConn_signals c ce
  · simp [handleConn, relay, hhook, hdial, countFatals]
  · intro rest
    simp [acceptLoop]

theorem C6_witness :
    handleConn sampleConfig { dialTargetOk := false, firstCopyErr := .nilErr }
      = [.dialTarget "127.0.0.1:8080", .logPrint "failed to connect to target",
         .closeConn .inbound] := by
  have h := C6_target_dial_failure_isolated sampleConfig
    { dialTargetOk := false, firstCopyErr := .nilErr } rfl rfl
  rw [h.1]
  decide

/-- C7: without a hook, a successful target dial starts both copy
directions, waits for the first result, logs it only when it is
neither nil nor end-of-stream, and then closes the target and inbound
connections unconditionally. -/
theorem C7_relay_behavior (c : Configuration) (ce : ConnEnv)
    (hhook : c.hasInBoundConnectionHook = false) (hdial : ce.dialTargetOk = true) :
    handleConn c ce
      = [.dialTarget (targetAddr c), .startCopy .targetToInbound,
         .startCopy .inboundToTarget]
        ++ (if ce.firstCopyErr = .otherErr then [Event.logPrint "failed to copy"] else [])
        ++ [.closeConn .target, .closeConn .inbound]
    ∧ (Event.logPrint "failed to copy" ∈ handleConn c ce ↔ ce.firstCopyErr = .otherErr)
    ∧ Event.closeConn .target ∈ handleConn c ce
    ∧ Event.closeConn .inbound ∈ handleConn c ce := by
  cases herr : ce.firstCopyErr <;>
    simp [handleConn, relay, hhook, hdial, herr]

theorem C7_witness :
    handleConn sampleConfig { dialTargetOk := true, firstCopyErr := .eofErr }
      = [.dialTarget "127.0.0.1:8080", .startCopy .targetToInbound,
         .startCopy .inboundToTarget, .closeConn .target, .closeConn .inbound] := by
  have h := C7_relay_behavior sampleConfig
    { dialTargetOk := true, firstCopyErr := .eofErr } rfl rfl
  rw [h.1]
  decide

/-- C8: with a hook configured, handling an accepted connection only
spawns the hook — the loop neither closes the connection nor does
anything else with it — and the loop goes on to the next accept. -/
theorem C8_hook_takes_ownership (c : Configuration) (ce : ConnEnv)
    (hhook : c.hasInBoundConnectionHook = true) :
    handleConn c ce = [Event.spawnHook]
    ∧ Event.closeConn .inbound ∉ handleConn c ce
    ∧ ∀ rest, acceptLoop c (AcceptResult.conn ce :: rest)
        = ((acceptLoop c rest).1, [Event.spawnHook] :: (acceptLoop c rest).2) := by
  refine ⟨by simp [handleConn, hhook], by simp [handleConn, hhook], ?_⟩
  intro rest
  simp [acceptLoop, handleConn, hhook]

theorem hsOk_update_proxyURL (e : Env) (x : Option URL) (pinned : String) :
    hsOk { e with proxyURL := x } pinned = hsOk e pinned := rfl

theorem hsOk_update_readResponse (e : Env) (x : Option HttpResponse) (pinned : String) :
    hsOk { e with readResponse := x } pinned = hsOk e pinned := rfl

theorem connectPhase_signals (c : Configuration) (e : Env) :
    countSignals (connectPhase c e).2
      = if (connectPhase c e).1 = ConnectOutcome.reconnectReturn then 1 else 0 := by
  rcases hk : e.parsedHostKey with _ | pinned
  · simp [connectPhase, hk, countSignals]
  · cases hp : (e.httpProxy != "")
    · cases hd2 : (!e.directTcpOk || !hsOk e pinned) <;>
        simp [connectPhase, hk, hp, hd2, countSignals]
    · rcases hu : e.proxyURL with _ | u
      · simp [connectPhase, hk, hp, hu, countSignals]
      · cases hd : e.proxyTcpDialOk
        · simp [connectPhase, hk, hp, hu, hd, countSignals]
        · rcases hr : e.readResponse with _ | resp
          · simp [connectPhase, hk, hp, hu, hd, hr, countSignals]
          · cases hh : hsOk e pinned <;>
              simp [connectPhase, hk, hp, hu, hd, hr, hh, countSignals]

theorem createAttempt_of_fatal (c : Configuration) (e : Env)
    (h : (connectPhase c e).1 = ConnectOutcome.fatal) :
    (createAttempt c e).termination = Termination.fatal
    ∧ (createAttempt c e).obtainedListener = false := by
  rcases hcp : connectPhase c e with ⟨co, evs⟩
  rw [hcp] at h
  cases co
  · simp [createAttempt, hcp]
  · simp at h
  · simp at h

theorem createAttempt_of_reconnect (c : Configuration) (e : Env) (evs : List Event)
    (h : connectPhase c e = (ConnectOutcome.reconnectReturn, evs)) :
    (createAttempt c e).termination = Termination.returned
    ∧ (createAttempt c e).mainEvents = evs
    ∧ (createAttempt c e).obtainedListener = false
    ∧ (createAttempt c e).readerEvents = []
    ∧ (createAttempt c e).connEvents = [] := by
  simp [createAttempt, h]

theorem createAttempt_listener_needs_connected (c : Configuration) (e : Env)
    (h : (connectPhase c e).1 ≠ ConnectOutcome.connected) :
    (createAttempt c e).obtainedListener = false := by
  rcases hcp : connectPhase c e with ⟨co, evs⟩
  rw [hcp] at h
  cases co
  · simp [createAttempt, hcp]
  · simp [createAttempt, hcp]
  · simp at h

theorem connectPhase_proxy_mismatch_fatal (c : Configuration) (e : Env) (pinned : String)
    (hk : e.parsedHostKey = some pinned) (hp : e.httpProxy ≠ "")
    (hhs : hsOk e pinned = false) :
    (connectPhase c e).1 = ConnectOutcome.fatal := by
  have hp2 : (e.httpProxy != "") = true := by simpa using hp
  rcases hu : e.proxyURL with _ | u
  · simp [connectPhase, hk, hp2, hu]
  · cases hd : e.proxyTcpDialOk
    · simp [connectPhase, hk, hp2, hu, hd]
    · rcases hr : e.readResponse with _ | resp
      · simp [connectPhase, hk, hp2, hu, hd, hr]
      · simp [connectPhase, hk, hp2, hu, hd, hr, hhs]

theorem connectPhase_mismatch_not_connected (c : Configuration) (e : Env) (pinned : String)
    (hk : e.parsedHostKey = some pinned) (hhs : hsOk e pinned = false) :
    (connectPhase c e).1 ≠ ConnectOutcome.connected := by
  cases hp : (e.httpProxy != "")
  · simp [connectPhase, hk, hp, hhs]
  · have hp2 : e.httpProxy ≠ "" := by simpa using hp
    rw [connectPhase_proxy_mismatch_fatal c e pinned hk hp2 hhs]
    simp

/-- C10: in proxy mode the raw TCP dial to the proxy uses exactly the
proxy URL hostname, and changing the port component of the proxy URL
changes nothing about the connect phase. -/
theorem C10_proxy_dial_ignores_port (c : Configuration) (e : Env) (u : URL)
    (hk : e.parsedHostKey ≠ none) (hp : e.httpProxy ≠ "")
    (hu : e.proxyURL = some u) :
    Event.dialProxy u.hostname ∈ (connectPhase c e).2
    ∧ (∀ a, Event.dialProxy a ∈ (connectPhase c e).2 → a = u.hostname)
    ∧ ∀ p, connectPhase c { e with proxyURL := some { u with port := p } }
        = connectPhase c e := by
  rcases e with ⟨pk, hpx, pu, ptd, rr, hst, prk, dtk, nso, spo, crs, lok, acc⟩
  rcases u with ⟨uh, up, uu⟩
  simp only at hu hp hk ⊢
  subst hu
  rcases pk with _ | pinned
  · exact absurd rfl hk
  · have hp2 : (hpx != "") = true := by simpa using hp
    refine ⟨?_, ?_, ?_⟩
    · cases ptd
      · simp [connectPhase, hp2]
      · rcases rr with _ | resp
        · simp [connectPhase, hp2]
        · by_cases hh : (hst && FixedHostKey pinned prk) = true <;>
            simp [connectPhase, hp2, hsOk, hh]
    · intro a ha
      cases ptd
      · simp [connectPhase, hp2] at ha
        exact ha
      · rcases rr with _ | resp
        · simp [connectPhase, hp2] at ha
          exact ha
        · by_cases hh : (hst && FixedHostKey pinned prk) = true <;>
            simp [connectPhase, hp2, hsOk, hh] at ha <;>
            exact ha
    · intro p
      rfl

theorem C10_witness :
    Event.dialProxy "proxy.local" ∈ (connectPhase sampleConfig envProxy407).2
    ∧ connectPhase sampleConfig
        { envProxy407 with
          proxyURL := some { hostname := "proxy.local", port := some "9999",
                             userinfo := none } }
      = connectPhase sampleConfig envProxy407 := by
  have h := C10_proxy_dial_ignores_port sampleConfig envProxy407 proxyURLSample
    (by decide) (by decide) rfl
  exact ⟨h.1, h.2.2 (some "9999")⟩

/-- C5: failure to obtain the remote listener is fatal, and an `Accept`
error ends the accept loop and the attempt with no reconnect signal. -/
theorem C5_listener_and_accept_errors (c : Configuration) (e : Env)
    (hconn : (connectPhase c e).1 = ConnectOutcome.connected)
    (hsess : e.newSessionOk = true) :
    (e.listenOk = false →
        (createAttempt c e).termination = Termination.fatal
        ∧ (createAttempt c e).obtainedListener = false)
    ∧ ∀ (ces : List ConnEnv) (rest : List AcceptResult), e.listenOk = true →
        e.accepts = ces.map AcceptResult.conn ++ AcceptResult.acceptErr :: rest →
        (createAttempt c e).termination = Termination.returned
        ∧ (createAttempt c e).connEvents = ces.map (handleConn c)
        ∧ (((createAttempt c e).connEvents).map countSignals).sum = 0
        ∧ countSignals (createAttempt c e).mainEvents = 0 := by
  have hsig := connectPhase_signals c e
  rcases hcp : connectPhase c e with ⟨co, evs⟩
  rw [hcp] at hconn hsig
  simp at hconn
  subst hconn
  have h0 : countSignals evs = 0 := by simpa using hsig
  constructor
  · intro hl
    cases hsp : e.stdoutPipeOk <;>
      simp [createAttempt, hcp, hsess, hsp, hl]
  · intro ces rest hl hacc
    have hal : acceptLoop c e.accepts = (.returnedErr, ces.map (handleConn c)) := by
      rw [hacc]
      exact acceptLoop_conns_then_err c ces rest
    have hsum : ((ces.map (handleConn c)).map countSignals).sum = 0 := by
      have := acceptLoop_signals c e.accepts
      rw [hal] at this
      exact this
    simp only [List.map_map] at hsum
    cases hsp : e.stdoutPipeOk <;>
      simp [createAttempt, hcp, hsess, hsp, hl, hal, hsum, countSignals_append, h0,
            countSignals_nil, countSignals_logPrint, countSignals_cons_logPrint]

theorem C5_witness :
    (createAttempt sampleConfig envDirectOk).termination = Termination.returned
    ∧ (createAttempt sampleConfig envDirectOk).connEvents
        = [handleConn sampleConfig { dialTargetOk := true, firstCopyErr := .nilErr }]
    ∧ (((createAttempt sampleConfig envDirectOk).connEvents).map countSignals).sum = 0
    ∧ countSignals (createAttempt sampleConfig envDirectOk).mainEvents = 0 := by
  have h := (C5_listener_and_accept_errors sampleConfig envDirectOk (by decide) rfl).2
    [{ dialTargetOk := true, firstCopyErr := .nilErr }] [] rfl rfl
  simpa using h

/-- C9: one session attempt sends the reconnect signal at most once,
counting the connect phase, the control output reader and every
connection handler together. -/
theorem C9_at_most_one_signal (c : Configuration) (e : Env) :
    attemptSignals (createAttempt c e) ≤ 1 := by
  have hsig := connectPhase_signals c e
  rcases hcp : connectPhase c e with ⟨co, evs⟩
  rw [hcp] at hsig
  cases co
  case fatal =>
    have h0 : countSignals evs = 0 := by simpa using hsig
    simp [createAttempt, hcp, attemptSignals, h0, countSignals_nil]
  case reconnectReturn =>
    have h1 : countSignals evs = 1 := by simpa using hsig
    simp [createAttempt, hcp, attemptSignals, h1, countSignals_nil]
  case connected =>
    have h0 : countSignals evs = 0 := by simpa using hsig
    have hrd := readerLoop_signals_le_one e.controlReads
    cases hns : e.newSessionOk
    · simp [createAttempt, hcp, attemptSignals, hns, countSignals_append, h0,
            countSignals_nil, countSignals_logFatal]
    · cases hl : e.listenOk
      · cases hsp : e.stdoutPipeOk <;>
          simpa [createAttempt, hcp, attemptSignals, hns, hl, hsp,
                 countSignals_append, h0, countSignals_nil, countSignals_logFatal,
                 countSignals_logPrint, countSignals_cons_logPrint,
                 countSignals_cons_logFatal] using hrd
      · have hca := acceptLoop_signals c e.accepts
        rcases hal : acceptLoop c e.accepts with ⟨lo, ces⟩
        rw [hal] at hca
        cases lo <;> cases hsp : e.stdoutPipeOk <;>
          simpa [createAttempt, hcp, attemptSignals, hns, hl, hsp, hal,
                 countSignals_append, h0, countSignals_nil, countSignals_logFatal,
                 countSignals_logPrint, countSignals_cons_logPrint,
                 countSignals_cons_logFatal, hca] using hrd

theorem C8_witness :
    handleConn { sampleConfig with hasInBoundConnectionHook := true }
        { dialTargetOk := true, firstCopyErr := .nilErr }
      = [Event.spawnHook] :=
  (C8_hook_takes_ownership { sampleConfig with hasInBoundConnectionHook := true }
    { dialTargetOk := true, firstCopyErr := .nilErr } rfl).1

/-- C1 counterexample: with the relay presenting a key other than the
pinned one in direct mode, the process does not terminate fatally —
the attempt logs an error, emits the reconnect signal and returns. -/
theorem C1_counterexample :
    FixedHostKey "pinned-key" envDirectMismatch.presentedKey = false
    ∧ (createAttempt sampleConfig envDirectMismatch).termination = Termination.returned
    ∧ (createAttempt sampleConfig envDirectMismatch).termination ≠ Termination.fatal
    ∧ countSignals (createAttempt sampleConfig envDirectMismatch).mainEvents = 1
    ∧ (createAttempt sampleConfig envDirectMismatch).obtainedListener = false := by
  decide

/-- C1 (amended): a pinned-key mismatch always rejects the handshake and
the attempt never obtains a remote listener; in proxy mode the process
terminates fatally, while in direct mode the attempt emits the
reconnect signal and returns instead of terminating. -/
theorem C1_amended_mismatch (c : Configuration) (e : Env) (pinned : String)
    (hk : e.parsedHostKey = some pinned)
    (hmm : FixedHostKey pinned e.presentedKey = false) :
    (connectPhase c e).1 ≠ ConnectOutcome.connected
    ∧ (createAttempt c e).obtainedListener = false
    ∧ (e.httpProxy = "" → e.directTcpOk = true →
        (createAttempt c e).termination = Termination.returned
        ∧ countSignals (createAttempt c e).mainEvents = 1)
    ∧ (e.httpProxy ≠ "" → (createAttempt c e).termination = Termination.fatal) := by
  have hhs : hsOk e pinned = false := by simp [hsOk, hmm]
  have hnc := connectPhase_mismatch_not_connected c e pinned hk hhs
  refine ⟨hnc, createAttempt_listener_needs_connected c e hnc, ?_, ?_⟩
  · intro hp _hdt
    have hp2 : (e.httpProxy != "") = false := by simp [hp]
    have hcp : connectPhase c e
        = (.reconnectReturn,
           [.logError "failed to connect", .sendSignal EventReconnect]) := by
      simp [connectPhase, hk, hp2, hhs]
    have h := createAttempt_of_reconnect c e _ hcp
    refine ⟨h.1, ?_⟩
    rw [h.2.1]
    rfl
  · intro hp
    exact (createAttempt_of_fatal c e
      (connectPhase_proxy_mismatch_fatal c e pinned hk hp hhs)).1

theorem C1_witness :
    (createAttempt sampleConfig envDirectMismatch).termination = Termination.returned
    ∧ countSignals (createAttempt sampleConfig envDirectMismatch).mainEvents = 1 :=
  (C1_amended_mismatch sampleConfig envDirectMismatch "pinned-key" rfl
    (by decide)).2.2.1 rfl rfl

/-- C2 counterexample: in proxy mode a failed initial TCP connect to the
proxy terminates the process and emits no reconnect signal, instead of
being treated as recoverable. -/
theorem C2_counterexample :
    envProxyDialFail.proxyTcpDialOk = false
    ∧ (createAttempt sampleConfig envProxyDialFail).termination = Termination.fatal
    ∧ (createAttempt sampleConfig envProxyDialFail).termination ≠ Termination.returned
    ∧ attemptSignals (createAttempt sampleConfig envProxyDialFail) = 0 := by
  decide

/-- C2 (amended): only a direct-mode connect failure is recoverable —
the attempt logs the failure, sends exactly one reconnect signal and
returns — while in proxy mode a connect failure to the proxy
terminates the process with no signal. -/
theorem C2_amended_connect_failure (c : Configuration) (e : Env) (pinned : String)
    (hk : e.parsedHostKey = some pinned) :
    (e.httpProxy = "" → e.directTcpOk = false →
        (createAttempt c e).termination = Termination.returned
        ∧ countSignals (createAttempt c e).mainEvents = 1
        ∧ attemptSignals (createAttempt c e) = 1)
    ∧ (e.httpProxy ≠ "" → e.proxyTcpDialOk = false →
        ∀ u, e.proxyURL = some u →
        (createAttempt c e).termination = Termination.fatal
        ∧ attemptSignals (createAttempt c e) = 0) := by
  constructor
  · intro hp hdt
    have hp2 : (e.httpProxy != "") = false := by simp [hp]
    have hcp : connectPhase c e
        = (.reconnectReturn,
           [.logError "failed to connect", .sendSignal EventReconnect]) := by
      simp [connectPhase, hk, hp2, hdt]
    have h := createAttempt_of_reconnect c e _ hcp
    refine ⟨h.1, ?_, ?_⟩
    · rw [h.2.1]
      rfl
    · simp [attemptSignals, h.2.1, h.2.2.2.1, h.2.2.2.2, countSignals_nil,
            countSignals_cons_logError, countSignals_cons_sendSignal]
  · intro hp hd u hu
    have hp2 : (e.httpProxy != "") = true := by simpa using hp
    have hcp : connectPhase c e
        = (.fatal, [.dialProxy u.hostname, .logFatal "cannot open new session"]) := by
      simp [connectPhase, hk, hp2, hu, hd]
    constructor
    · refine (createAttempt_of_fatal c e ?_).1
      rw [hcp]
    · simp [createAttempt, hcp, attemptSignals, countSignals_nil,
            countSignals_cons_dialProxy, countSignals_cons_logFatal]

theorem C2_witness :
    (createAttempt sampleConfig envProxyDialFail).termination = Termination.fatal
    ∧ attemptSignals (createAttempt sampleConfig envProxyDialFail) = 0 :=
  (C2_amended_connect_failure sampleConfig envProxyDialFail "pinned-key" rfl).2
    (by decide) rfl proxyURLSample rfl

/-- C3 counterexample: a well-formed CONNECT response with the
non-success status 407 does not abort the attempt — the secure
handshake proceeds, the attempt is not fatal, and the remote listener
is obtained. -/
theorem C3_counterexample :
    specSuccessStatus 407 = false
    ∧ envProxy407.readResponse = some { statusCode := 407 }
    ∧ (connectPhase sampleConfig envProxy407).1 = ConnectOutcome.connected
    ∧ (createAttempt sampleConfig envProxy407).termination ≠ Termination.fatal
    ∧ (createAttempt sampleConfig envProxy407).obtainedListener = true := by
  decide

/-- C3 (amended): in proxy mode only a failure to read or parse the
CONNECT response aborts the attempt fatally; the status code of a
well-formed response is never inspected — replacing it by any other
value leaves the connect phase entirely unchanged. -/
theorem C3_amended_response_handling (c : Configuration) (e : Env)
    (pinned : String) (u : URL)
    (hk : e.parsedHostKey = some pinned) (hp : e.httpProxy ≠ "")
    (hu : e.proxyURL = some u) (hd : e.proxyTcpDialOk = true) :
    (e.readResponse = none → (createAttempt c e).termination = Termination.fatal)
    ∧ ∀ (resp : HttpResponse) (n : Nat), e.readResponse = some resp →
        connectPhase c { e with readResponse := some { statusCode := n } }
          = connectPhase c e := by
  rcases e with ⟨pk, hpx, pu, ptd, rr, hst, prk, dtk, nso, spo, crs, lok, acc⟩
  simp only at hk hp hu hd ⊢
  subst hk
  subst hu
  subst hd
  have hp2 : (hpx != "") = true := by simpa using hp
  constructor
  · intro hr
    subst hr
    refine (createAttempt_of_fatal c _ ?_).1
    simp [connectPhase, hp2]
  · intro resp n hr
    subst hr
    rfl

theorem C3_witness :
    connectPhase sampleConfig
        { envProxy407 with readResponse := some { statusCode := 200 } }
      = connectPhase sampleConfig envProxy407 :=
  (C3_amended_response_handling sampleConfig envProxy407 "pinned-key"
    proxyURLSample rfl (by decide) rfl rfl).2 { statusCode := 407 } 200 rfl

end Tunnel
